import Mathlib

/-
  Verification development for the danfoss-ally-rs client (src/lib.rs).

  Shallow embedding conventions:
  - HTTP transport is an oracle `net : HttpRequest -> NetOutcome` passed to each
    operation; `NetOutcome.fail` covers a failed send() or a failed text() read,
    `NetOutcome.succeed status body` is a delivered response with its HTTP
    status code and body.
  - A response body is either not valid JSON (`Body.malformed`) or a JSON value;
    JSON number literals are kept as their decimal source text (`Value.num s`)
    so that no floating point is needed.
  - serde_json deserialization of the derived structs is modelled by explicit
    decoders over `Value` (all fields required, unknown fields ignored, which is
    the serde default for these derives).
  - Rust `Instant` is an abstract time point (Nat); `Instant::now()` becomes an
    explicit `now` argument. `&mut self` methods return the post-state next to
    the `Result`, so a failing run returns the unchanged pre-state exactly when
    the Rust control flow leaves `self` untouched.
-/

/-- A JSON value as produced by serde_json. Number literals are kept as their
decimal text to stay faithful without modelling floating point. -/
inductive Value where
  | null : Value
  | bool (b : Bool) : Value
  | num (s : String) : Value
  | str (s : String) : Value
  | arr (xs : List Value) : Value
  | obj (fields : List (String × Value)) : Value
deriving Repr

/-- Rendering of a JSON value as serde_json Display prints it (compact form),
used by the debug! line in get_devices. -/
def renderValue : Value → String
  | Value.null => "null"
  | Value.bool true => "true"
  | Value.bool false => "false"
  | Value.num s => s
  | Value.str s => "\"" ++ s ++ "\""
  | Value.arr xs => "[" ++ String.intercalate "," (xs.attach.map (fun x => renderValue x.1)) ++ "]"
  | Value.obj fs => "\x7b" ++ String.intercalate ","
      (fs.attach.map (fun f => "\"" ++ f.1.1 ++ "\":" ++ renderValue f.1.2)) ++ "\x7d"
decreasing_by
  · have h := List.sizeOf_lt_of_mem x.2
    simp only [Value.arr.sizeOf_spec]
    omega
  · have h1 := List.sizeOf_lt_of_mem f.2
    have h2 : sizeOf f.1.2 < sizeOf f.1 := by
      cases f.1
      simp only [Prod.mk.sizeOf_spec]
      omega
    simp only [Value.obj.sizeOf_spec]
    omega

/-- A struct representing a danfoss api token (src/lib.rs, struct Token). -/
structure Token where
  access_token : String
  token_type : String
  expires_in : String
deriving Repr, DecidableEq

/-- Values of a device setting (src/lib.rs, struct Status). -/
structure Status where
  code : String
  value : Value
deriving Repr

/-- A struct implementing the device schema (src/lib.rs, struct Device). -/
structure Device where
  active_time : Int
  create_time : Int
  id : String
  name : String
  online : Bool
  status : List Status
  sub : Bool
  time_zone : String
  update_time : Int
  device_type : String
deriving Repr

/-- The response for the /devices/ endpoint (src/lib.rs, struct DevicesResponse). -/
structure DevicesResponse where
  result : List Device
  t : Int
deriving Repr

/-- Rust std::time::Duration, as constructed by Duration::new(secs, nanos). -/
structure Duration where
  secs : Nat
  nanos : Nat
deriving Repr, DecidableEq

/-- Rust std::time::Instant, abstracted to a point on a discrete timeline. -/
abbrev Instant := Nat

/-- UTF-8 encoding of a single code point, as a list of byte values. -/
def utf8EncodeChar (n : Nat) : List Nat :=
  if n < 128 then [n]
  else if n < 2048 then [192 + n / 64, 128 + n % 64]
  else if n < 65536 then [224 + n / 4096, 128 + (n / 64) % 64, 128 + n % 64]
  else [240 + n / 262144, 128 + (n / 4096) % 64, 128 + (n / 64) % 64, 128 + n % 64]

/-- The bytes of the UTF-8 encoding of a string. -/
def utf8Bytes (s : String) : List Nat :=
  s.toList.flatMap (fun c => utf8EncodeChar c.toNat)

/-- The standard base64 alphabet. -/
def base64Alphabet : List Char :=
  "ABCDEFGHIJKLMNOPQRSTUVWXYZabcdefghijklmnopqrstuvwxyz0123456789+/".toList

/-- Character of the base64 alphabet at a given 6-bit index. -/
def b64At (i : Nat) : Char := base64Alphabet.getD i 'A'

/-- Standard base64 encoding of a byte list, with '=' padding, as performed by
the base64 crate's encode function. -/
def base64EncodeBytes : List Nat → String
  | [] => ""
  | [a] =>
      String.mk [b64At (a / 4), b64At ((a % 4) * 16)] ++ "=="
  | [a, b] =>
      String.mk [b64At (a / 4), b64At ((a % 4) * 16 + b / 16), b64At ((b % 16) * 4)] ++ "="
  | a :: b :: c :: rest =>
      String.mk [b64At (a / 4), b64At ((a % 4) * 16 + b / 16),
                 b64At ((b % 16) * 4 + c / 64), b64At (c % 64)] ++
      base64EncodeBytes rest

/-- base64::encode of a Rust String (encodes its UTF-8 bytes). -/
def base64Encode (s : String) : String := base64EncodeBytes (utf8Bytes s)

/-- An HTTP request as assembled by the reqwest builder calls in src/lib.rs:
method, URL, header list (reqwest stores header names lowercased), and the
serialized body (the urlencoded form for get_token, empty for get_devices). -/
structure HttpRequest where
  method : String
  url : String
  headers : List (String × String)
  body : String
deriving Repr, DecidableEq

/-- A delivered response body: either text that is not valid JSON, or a JSON
value. -/
inductive Body where
  | malformed : Body
  | json (v : Value) : Body

/-- Outcome of one HTTP exchange: a transport failure (failed send() or failed
text() read), or a delivered response with its status code and body. The code
in src/lib.rs never inspects the status code. -/
inductive NetOutcome where
  | fail : NetOutcome
  | succeed (status : Nat) (body : Body) : NetOutcome

/-- The error cases that get_token and get_devices can return (the Rust code
boxes the reqwest error and the serde_json error into Box of dyn Error). -/
inductive ApiError where
  | transport : ApiError
  | deserialize : ApiError
deriving Repr, DecidableEq

/-- First binding of a field name in a JSON object, as serde looks fields up. -/
def lookupField (fs : List (String × Value)) (k : String) : Option Value :=
  match fs with
  | [] => none
  | (k2, v) :: rest => if k2 = k then some v else lookupField rest k

/-- serde deserialization of a JSON value into a Rust String field. -/
def asString : Value → Option String
  | Value.str s => some s
  | _ => none

/-- serde deserialization of a JSON value into a Rust bool field. -/
def asBool : Value → Option Bool
  | Value.bool b => some b
  | _ => none

/-- Decimal digit-string reading: none when empty or when any character is
not an ascii digit. -/
def digitsToNat? (cs : List Char) : Option Nat :=
  match cs with
  | [] => none
  | _ =>
    if cs.all (fun c => c.isDigit)
    then some (cs.foldl (fun acc c => acc * 10 + (c.toNat - 48)) 0)
    else none

/-- An integer literal: an optional leading minus sign, then decimal digits. -/
def parseIntLit (s : String) : Option Int :=
  match s.toList with
  | '-' :: rest => (digitsToNat? rest).map (fun n => -(n : Int))
  | cs => (digitsToNat? cs).map (fun n => (n : Int))

/-- serde deserialization of a JSON value into a Rust i64 field: the numeral
must be an integer literal in i64 range. -/
def asI64 : Value → Option Int
  | Value.num s =>
      match parseIntLit s with
      | some n => if -(2 ^ 63) ≤ n ∧ n < 2 ^ 63 then some n else none
      | none => none
  | _ => none

/-- serde_json deserialization of Token from a JSON value (all three fields
required, each a JSON string). -/
def tokenFromJson (v : Value) : Option Token :=
  match v with
  | Value.obj fs => do
      let a ← lookupField fs "access_token" >>= asString
      let ty ← lookupField fs "token_type" >>= asString
      let e ← lookupField fs "expires_in" >>= asString
      pure { access_token := a, token_type := ty, expires_in := e }
  | _ => none

/-- serde_json deserialization of Status from a JSON value. -/
def statusFromJson (v : Value) : Option Status :=
  match v with
  | Value.obj fs => do
      let c ← lookupField fs "code" >>= asString
      let val ← lookupField fs "value"
      pure { code := c, value := val }
  | _ => none

/-- serde_json deserialization of Device from a JSON value. -/
def deviceFromJson (v : Value) : Option Device :=
  match v with
  | Value.obj fs => do
      let at2 ← lookupField fs "active_time" >>= asI64
      let ct ← lookupField fs "create_time" >>= asI64
      let i ← lookupField fs "id" >>= asString
      let n ← lookupField fs "name" >>= asString
      let onl ← lookupField fs "online" >>= asBool
      let stj ← lookupField fs "status"
      let st ← match stj with
        | Value.arr xs => xs.mapM statusFromJson
        | _ => none
      let sb ← lookupField fs "sub" >>= asBool
      let tz ← lookupField fs "time_zone" >>= asString
      let ut ← lookupField fs "update_time" >>= asI64
      let dt ← lookupField fs "device_type" >>= asString
      pure { active_time := at2, create_time := ct, id := i, name := n,
             online := onl, status := st, sub := sb, time_zone := tz,
             update_time := ut, device_type := dt }
  | _ => none

/-- serde_json deserialization of DevicesResponse from a JSON value. -/
def devicesResponseFromJson (v : Value) : Option DevicesResponse :=
  match v with
  | Value.obj fs => do
      let rj ← lookupField fs "result"
      let r ← match rj with
        | Value.arr xs => xs.mapM deviceFromJson
        | _ => none
      let t2 ← lookupField fs "t" >>= asI64
      pure { result := r, t := t2 }
  | _ => none

/-- serde_json::from_str::<Token> applied to a response body. -/
def deserializeToken : Body → Option Token
  | Body.malformed => none
  | Body.json v => tokenFromJson v

/-- serde_json::from_str::<DevicesResponse> applied to a response body. -/
def deserializeDevicesResponse : Body → Option DevicesResponse
  | Body.malformed => none
  | Body.json v => devicesResponseFromJson v

/-- Struct that holds all information to interact with the Danfoss ally api
(src/lib.rs, struct AllyApi). The reqwest client handle carries no state the
code observes, so it is omitted. -/
structure AllyApi where
  devices : List Device
  token : Token
  time_since_update : Instant
  time_since_token_renewal : Instant
  polling_interval : Duration
  api_key : String
  api_secret : String

/-- AllyApi::new (src/lib.rs lines 152-171): reads the two credentials from
the process environment, halting with the expect message when one is absent
(modelled as Except.error; no network oracle is even in scope, so construction
performs no network call), and otherwise builds the initial state. -/
def AllyApi.new (env : String → Option String) (now : Instant) :
    Except String AllyApi :=
  match env "DANFOSS_API_KEY" with
  | none => Except.error
      "No Danfoss API key provided. Please set DANFOSS_API_KEY environment variable."
  | some api_key =>
    match env "DANFOSS_API_SECRET" with
    | none => Except.error
        "No Danfoss API secret provided.Please set DANFOSS_API_SECRET environment variable."
    | some api_secret =>
      Except.ok
        { devices := []
          token := { access_token := "", token_type := "", expires_in := "0" }
          api_key := api_key
          api_secret := api_secret
          time_since_update := now
          time_since_token_renewal := now
          polling_interval := { secs := 30, nanos := 0 } }

/-- The token request assembled by get_token (src/lib.rs lines 174-186):
POST to the oauth2 token endpoint with basic auth over base64(key:secret) and
the urlencoded form grant_type=client_credentials. -/
def tokenRequest (api_key api_secret : String) : HttpRequest :=
  { method := "POST"
    url := "https://api.danfoss.com/oauth2/token"
    headers :=
      [("content-type", "application/x-www-form-urlencoded"),
       ("accept", "application/json"),
       ("authorization", "Basic " ++ base64Encode (api_key ++ ":" ++ api_secret))]
    body := "grant_type=client_credentials" }

/-- The device-list request assembled by get_devices (src/lib.rs lines
193-200): GET with a bearer authorization header from the stored token. -/
def devicesRequest (access_token : String) : HttpRequest :=
  { method := "GET"
    url := "https://api.danfoss.com/ally/devices"
    headers :=
      [("accept", "application/json"),
       ("authorization", "Bearer " ++ access_token)]
    body := "" }

/-- AllyApi::get_token (src/lib.rs lines 173-189). Sends the token request;
propagates a transport failure, then deserializes the body as a Token;
only on success is self.token assigned. Both failure exits happen before the
assignment, so the pre-state is returned unchanged there. -/
def AllyApi.get_token (s : AllyApi) (net : HttpRequest → NetOutcome) :
    Except ApiError Unit × AllyApi :=
  match net (tokenRequest s.api_key s.api_secret) with
  | NetOutcome.fail => (Except.error ApiError.transport, s)
  | NetOutcome.succeed _status body =>
    match deserializeToken body with
    | none => (Except.error ApiError.deserialize, s)
    | some tok => (Except.ok (), { s with token := tok })

/-- The debug lines emitted by the loop at src/lib.rs lines 207-213: one line
per status whose code is va_temperature or temp_current, in document order,
formatted as name, colon, space, value (the debug! format string). -/
def temperatureLines (devs : List Device) : List String :=
  devs.flatMap (fun d =>
    d.status.filterMap (fun st =>
      if st.code = "va_temperature" ∨ st.code = "temp_current"
      then some (d.name ++ ": " ++ renderValue st.value)
      else none))

/-- AllyApi.get_devices (src/lib.rs lines 192-216). Sends the device-list
request; propagates transport failure, deserializes the envelope, and only on
success assigns self.devices from the result field and stamps
time_since_update; when debug logging is enabled it then emits the temperature
lines. The emitted lines are returned alongside the Result and post-state. -/
def AllyApi.get_devices (s : AllyApi) (net : HttpRequest → NetOutcome)
    (now : Instant) (debugEnabled : Bool) :
    Except ApiError Unit × AllyApi × List String :=
  match net (devicesRequest s.token.access_token) with
  | NetOutcome.fail => (Except.error ApiError.transport, s, [])
  | NetOutcome.succeed _status body =>
    match deserializeDevicesResponse body with
    | none => (Except.error ApiError.deserialize, s, [])
    | some dr =>
      let s2 : AllyApi := { s with devices := dr.result, time_since_update := now }
      (Except.ok (), s2, if debugEnabled then temperatureLines s2.devices else [])

/-- Rust str::parse::<u64> on a string: an optional leading plus sign, then
one or more ascii digits, value within u64 range. -/
def parseU64 (s : String) : Option Nat :=
  let cs :=
    match s.toList with
    | '+' :: rest => rest
    | cs => cs
  match digitsToNat? cs with
  | none => none
  | some n => if n < 2 ^ 64 then some n else none

/-- The renewal-due check of the documented poll loop (src/lib.rs lines
101-103): elapsed seconds since the last renewal compared against the parsed
expires_in; the parse error propagates (the question-mark operator), modelled
as Except.error. -/
def is_renewal_due (elapsed : Nat) (tok : Token) : Except Unit Bool :=
  match parseU64 tok.expires_in with
  | none => Except.error ()
  | some n => Except.ok (decide (n ≤ elapsed))

/-! Concrete values used by witnesses and counterexamples. -/

/-- A concrete client state with a previously obtained token and snapshot. -/
def apiEx : AllyApi :=
  { devices := []
    token := { access_token := "t0", token_type := "bearer", expires_in := "30" }
    time_since_update := 0
    time_since_token_renewal := 0
    polling_interval := { secs := 30, nanos := 0 }
    api_key := "key"
    api_secret := "secret" }

/-- A network in which every exchange fails at the transport level. -/
def netFail : HttpRequest → NetOutcome := fun _ => NetOutcome.fail

/-- A concrete token whose expires_in is the decimal text 30. -/
def tokEx : Token := { access_token := "abc", token_type := "bearer", expires_in := "30" }

/-- A concrete environment holding both credentials. -/
def envEx : String → Option String := fun nm =>
  if nm = "DANFOSS_API_KEY" then some "key"
  else if nm = "DANFOSS_API_SECRET" then some "secret" else none

/-- The client state that AllyApi.new builds from envEx at time 0. -/
def apiNew : AllyApi :=
  { devices := []
    token := { access_token := "", token_type := "", expires_in := "0" }
    api_key := "key"
    api_secret := "secret"
    time_since_update := 0
    time_since_token_renewal := 0
    polling_interval := { secs := 30, nanos := 0 } }

/-- The empty environment. -/
def envNone : String → Option String := fun _ => none

/-- An environment holding only the key, not the secret. -/
def envKeyOnly : String → Option String := fun nm =>
  if nm = "DANFOSS_API_KEY" then some "key" else none

/-- A network that only answers GET requests, failing all others. -/
def netGetOnly : HttpRequest → NetOutcome := fun r =>
  if r.method = "GET" then NetOutcome.succeed 200 Body.malformed else NetOutcome.fail

/-- A temperature status as it appears in a device status list. -/
def stTemp : Status := { code := "temp_current", value := Value.num "21.5" }

/-- A lock status, which is not temperature output. -/
def stLock : Status := { code := "lock", value := Value.bool true }

/-- A concrete device carrying one temperature status and one lock status. -/
def devW : Device :=
  { active_time := 1
    create_time := 2
    id := "dev1"
    name := "Living room"
    online := true
    status := [stTemp, stLock]
    sub := false
    time_zone := "UTC"
    update_time := 3
    device_type := "thermostat" }

/-- The JSON of devW as the device endpoint would deliver it. -/
def devJson : Value := Value.obj
  [("active_time", Value.num "1"),
   ("create_time", Value.num "2"),
   ("id", Value.str "dev1"),
   ("name", Value.str "Living room"),
   ("online", Value.bool true),
   ("status", Value.arr
     [Value.obj [("code", Value.str "temp_current"), ("value", Value.num "21.5")],
      Value.obj [("code", Value.str "lock"), ("value", Value.bool true)]]),
   ("sub", Value.bool false),
   ("time_zone", Value.str "UTC"),
   ("update_time", Value.num "3"),
   ("device_type", Value.str "thermostat")]

/-- The decoded envelope holding just devW. -/
def drW : DevicesResponse := { result := [devW], t := 7 }

/-- The JSON body of the envelope holding just devW. -/
def bodyW : Body := Body.json (Value.obj [("result", Value.arr [devJson]), ("t", Value.num "7")])

/-- A network that always delivers the devW envelope with status 200. -/
def netW : HttpRequest → NetOutcome := fun _ => NetOutcome.succeed 200 bodyW

/-- A device present before the fetch but absent from the response. -/
def devOld : Device :=
  { active_time := 0
    create_time := 0
    id := "old1"
    name := "Hallway"
    online := false
    status := []
    sub := false
    time_zone := "UTC"
    update_time := 0
    device_type := "thermostat" }

/-- A client state still holding the stale device devOld. -/
def apiOld : AllyApi := { apiEx with devices := [devOld] }

/-- The post-state of the C7 witness run. -/
def sW2 : AllyApi := { apiEx with devices := [devW], time_since_update := 5 }

/-- The lines of the C7 witness run. -/
def linesW : List String := ["Living room: 21.5"]

/-- A JSON body that deserializes as a Token, as delivered by a hypothetical
non-2xx response. -/
def tokenBody401 : Body := Body.json (Value.obj
  [("access_token", Value.str "tok401"),
   ("token_type", Value.str "bearer"),
   ("expires_in", Value.str "1800")])

/-- A network that answers every request with status 401 and a Token-shaped
body. -/
def net401 : HttpRequest → NetOutcome := fun _ => NetOutcome.succeed 401 tokenBody401

/-- A network that answers every request with status 500 and a
DevicesResponse-shaped body. -/
def net500 : HttpRequest → NetOutcome := fun _ => NetOutcome.succeed 500 bodyW

/-- A network that delivers status 500 with a body that is not valid JSON. -/
def netBad : HttpRequest → NetOutcome := fun _ => NetOutcome.succeed 500 Body.malformed

/-- Exhaustive case analysis of get_token: either it fails and returns the
pre-state unchanged, or it succeeds and only the token field is replaced. -/
theorem get_token_cases (s : AllyApi) (net : HttpRequest → NetOutcome) :
    (∃ e, s.get_token net = (Except.error e, s)) ∨
    (∃ tok, s.get_token net = (Except.ok (), { s with token := tok })) := by
  rcases hn : net (tokenRequest s.api_key s.api_secret) with _ | ⟨st, body⟩
  · exact Or.inl ⟨ApiError.transport, by simp only [AllyApi.get_token, hn]⟩
  · rcases hd : deserializeToken body with _ | tok
    · exact Or.inl ⟨ApiError.deserialize, by simp only [AllyApi.get_token, hn, hd]⟩
    · exact Or.inr ⟨tok, by simp only [AllyApi.get_token, hn, hd]⟩

/-- Exhaustive case analysis of get_devices: either it fails, returning the
pre-state unchanged with no emitted lines, or it succeeds, replacing the
devices field with the decoded result and stamping time_since_update. -/
theorem get_devices_cases (s : AllyApi) (net : HttpRequest → NetOutcome)
    (now : Instant) (dbg : Bool) :
    (∃ e, s.get_devices net now dbg = (Except.error e, s, [])) ∨
    (∃ dr : DevicesResponse,
      s.get_devices net now dbg =
        (Except.ok (), { s with devices := dr.result, time_since_update := now },
          if dbg then temperatureLines dr.result else [])) := by
  rcases hn : net (devicesRequest s.token.access_token) with _ | ⟨st, body⟩
  · exact Or.inl ⟨ApiError.transport, by simp only [AllyApi.get_devices, hn]⟩
  · rcases hd : deserializeDevicesResponse body with _ | dr
    · exact Or.inl ⟨ApiError.deserialize,
        by simp only [AllyApi.get_devices, hn, hd]⟩
    · exact Or.inr ⟨dr, by simp only [AllyApi.get_devices, hn, hd]⟩

/-- C2: on every failing run of get_token (transport error or Token
deserialization error), the stored token after the call equals the token held
before the call. -/
theorem get_token_failure_preserves_token (s : AllyApi)
    (net : HttpRequest → NetOutcome) (e : ApiError) (s2 : AllyApi)
    (h : s.get_token net = (Except.error e, s2)) : s2.token = s.token := by
  rcases get_token_cases s net with ⟨e2, he⟩ | ⟨tok, ho⟩
  · rw [he] at h
    injection h with h1 h2
    rw [← h2]
  · rw [ho] at h
    injection h with h1 h2
    exact absurd h1 (by simp)

/-- Witness for C2 at a concrete state and a failing network. -/
theorem get_token_failure_preserves_token_witness :
    ((apiEx.get_token netFail).snd).token = apiEx.token :=
  get_token_failure_preserves_token apiEx netFail ApiError.transport
    (apiEx.get_token netFail).snd rfl

/-- C3: on every failing run of get_devices (transport error or envelope
deserialization error), the devices snapshot after the call equals the
snapshot held before the call. -/
theorem get_devices_failure_preserves_snapshot (s : AllyApi)
    (net : HttpRequest → NetOutcome) (now : Instant) (dbg : Bool) (e : ApiError)
    (s2 : AllyApi) (lines : List String)
    (h : s.get_devices net now dbg = (Except.error e, s2, lines)) :
    s2.devices = s.devices := by
  rcases get_devices_cases s net now dbg with ⟨e2, he⟩ | ⟨dr, ho⟩
  · rw [he] at h
    injection h with h1 h2
    injection h2 with h3 h4
    rw [← h3]
  · rw [ho] at h
    injection h with h1 h2
    exact absurd h1 (by simp)

/-- Witness for C3 at a concrete state and a failing network. -/
theorem get_devices_failure_preserves_snapshot_witness :
    ((apiEx.get_devices netFail 9 true).snd.fst).devices = apiEx.devices :=
  get_devices_failure_preserves_snapshot apiEx netFail 9 true
    ApiError.transport (apiEx.get_devices netFail 9 true).snd.fst
    (apiEx.get_devices netFail 9 true).snd.snd rfl

/-- C10: every run of get_token, successful or failing, leaves every field of
the client other than token unchanged; in particular time_since_token_renewal
is not touched, so the caller must stamp the renewal time itself. -/
theorem get_token_frame (s : AllyApi) (net : HttpRequest → NetOutcome) :
    ((s.get_token net).snd).devices = s.devices ∧
    ((s.get_token net).snd).time_since_update = s.time_since_update ∧
    ((s.get_token net).snd).time_since_token_renewal = s.time_since_token_renewal ∧
    ((s.get_token net).snd).polling_interval = s.polling_interval ∧
    ((s.get_token net).snd).api_key = s.api_key ∧
    ((s.get_token net).snd).api_secret = s.api_secret := by
  rcases get_token_cases s net with ⟨e, he⟩ | ⟨tok, ho⟩
  · rw [he]
    exact ⟨rfl, rfl, rfl, rfl, rfl, rfl⟩
  · rw [ho]
    exact ⟨rfl, rfl, rfl, rfl, rfl, rfl⟩

/-- C5: whenever expires_in parses as a u64, the renewal-due check returns
true exactly when the elapsed seconds reach the parsed value, and the boundary
case elapsed = expires_in counts as due. -/
theorem is_renewal_due_iff_elapsed_ge (elapsed n : Nat) (tok : Token)
    (h : parseU64 tok.expires_in = some n) :
    (is_renewal_due elapsed tok = Except.ok true ↔ n ≤ elapsed) ∧
    is_renewal_due n tok = Except.ok true := by
  constructor
  · simp only [is_renewal_due, h, Except.ok.injEq, decide_eq_true_eq]
  · simp only [is_renewal_due, h, Except.ok.injEq, decide_eq_true_eq]
    exact Nat.le_refl n

/-- Witness for C5 at expires_in 30: elapsed 45 is due, elapsed 10 is not,
and the boundary elapsed 30 is due. -/
theorem is_renewal_due_iff_elapsed_ge_witness :
    is_renewal_due 45 tokEx = Except.ok true ∧
    is_renewal_due 10 tokEx = Except.ok false ∧
    is_renewal_due 30 tokEx = Except.ok true := by
  refine ⟨(is_renewal_due_iff_elapsed_ge 45 30 tokEx (by decide)).1.mpr (by decide),
    ?_, (is_renewal_due_iff_elapsed_ge 30 30 tokEx (by decide)).2⟩
  rfl

/-- C6: a successfully constructed client starts with expires_in equal to the
text 0, so the first renewal-due check is due for every elapsed time. -/
theorem new_token_expires_in_zero_first_check_due
    (env : String → Option String) (now : Instant) (api : AllyApi)
    (h : AllyApi.new env now = Except.ok api) :
    api.token.expires_in = "0" ∧
    ∀ elapsed : Nat, is_renewal_due elapsed api.token = Except.ok true := by
  have htok : api.token = { access_token := "", token_type := "", expires_in := "0" } := by
    unfold AllyApi.new at h
    rcases hk : env "DANFOSS_API_KEY" with _ | k
    · rw [hk] at h
      exact absurd h (by simp)
    · rw [hk] at h
      rcases hs : env "DANFOSS_API_SECRET" with _ | sec
      · rw [hs] at h
        exact absurd h (by simp)
      · rw [hs] at h
        injection h with h2
        rw [← h2]
  rw [htok]
  refine ⟨rfl, fun elapsed => ?_⟩
  have hp : parseU64 "0" = some 0 := by decide
  simp only [is_renewal_due, hp, Except.ok.injEq, decide_eq_true_eq]
  exact Nat.zero_le elapsed

/-- Witness for C6 at a concrete environment: the freshly built client is
due at elapsed time 0 already. -/
theorem new_token_expires_in_zero_first_check_due_witness :
    apiNew.token.expires_in = "0" ∧
    is_renewal_due 0 apiNew.token = Except.ok true := by
  have h := new_token_expires_in_zero_first_check_due envEx 0 apiNew rfl
  exact ⟨h.1, h.2 0⟩

/-- C8: construction with a missing DANFOSS_API_KEY (or, key present, with a
missing DANFOSS_API_SECRET) halts with the message naming the missing
variable, and no client value is produced; the constructor has no access to
the network oracle, so no network call can precede the halt. -/
theorem new_missing_env_error (env : String → Option String) (now : Instant) :
    (env "DANFOSS_API_KEY" = none →
      AllyApi.new env now = Except.error
        "No Danfoss API key provided. Please set DANFOSS_API_KEY environment variable.") ∧
    (∀ k, env "DANFOSS_API_KEY" = some k → env "DANFOSS_API_SECRET" = none →
      AllyApi.new env now = Except.error
        "No Danfoss API secret provided.Please set DANFOSS_API_SECRET environment variable.") := by
  constructor
  · intro h
    simp only [AllyApi.new, h]
  · intro k hk hs
    simp only [AllyApi.new, hk, hs]

/-- Witness for C8: both halting messages at concrete environments. -/
theorem new_missing_env_error_witness :
    AllyApi.new envNone 0 = Except.error
      "No Danfoss API key provided. Please set DANFOSS_API_KEY environment variable." ∧
    AllyApi.new envKeyOnly 0 = Except.error
      "No Danfoss API secret provided.Please set DANFOSS_API_SECRET environment variable." :=
  ⟨(new_missing_env_error envNone 0).1 rfl,
   (new_missing_env_error envKeyOnly 0).2 "key" rfl rfl⟩

/-- C9: the token request assembled for a credential pair is a POST to the
oauth2 token endpoint with the urlencoded content type, JSON accept header,
an authorization header of exactly Basic followed by base64(key:secret), and
the form body grant_type=client_credentials; moreover get_token consults the
network precisely at that request, so two networks that agree on it produce
the same run. -/
theorem token_request_shape (key secret : String) (s : AllyApi)
    (net net2 : HttpRequest → NetOutcome)
    (hnet : net (tokenRequest s.api_key s.api_secret) =
            net2 (tokenRequest s.api_key s.api_secret)) :
    ((tokenRequest key secret).method = "POST" ∧
     (tokenRequest key secret).url = "https://api.danfoss.com/oauth2/token" ∧
     (tokenRequest key secret).headers =
       [("content-type", "application/x-www-form-urlencoded"),
        ("accept", "application/json"),
        ("authorization", "Basic " ++ base64Encode (key ++ ":" ++ secret))] ∧
     (tokenRequest key secret).body = "grant_type=client_credentials") ∧
    s.get_token net = s.get_token net2 := by
  refine ⟨⟨rfl, rfl, rfl, rfl⟩, ?_⟩
  simp only [AllyApi.get_token, hnet]

/-- Witness for C9: at the credential pair key and secret the authorization
header evaluates to the expected base64 text, and a run against a network
that fails every POST equals a run against the all-failing network. -/
theorem token_request_shape_witness :
    apiEx.get_token netFail = apiEx.get_token netGetOnly ∧
    (tokenRequest "key" "secret").headers =
      [("content-type", "application/x-www-form-urlencoded"),
       ("accept", "application/json"),
       ("authorization", "Basic a2V5OnNlY3JldA==")] :=
  ⟨(token_request_shape "key" "secret" apiEx netFail netGetOnly rfl).2,
   ((token_request_shape "key" "secret" apiEx netFail netGetOnly rfl).1.2.2.1).trans
     (by rfl)⟩

/-- C4: on every successful run of get_devices, the devices field afterwards
is exactly the result array of the decoded envelope, so a device absent from
the response is no longer in the snapshot. -/
theorem get_devices_success_replaces_snapshot (s : AllyApi)
    (net : HttpRequest → NetOutcome) (now : Instant) (dbg : Bool)
    (st : Nat) (body : Body) (dr : DevicesResponse)
    (hnet : net (devicesRequest s.token.access_token) = NetOutcome.succeed st body)
    (hdec : deserializeDevicesResponse body = some dr) :
    (s.get_devices net now dbg).fst = Except.ok () ∧
    ((s.get_devices net now dbg).snd.fst).devices = dr.result ∧
    ∀ d : Device, d ∉ dr.result → d ∉ ((s.get_devices net now dbg).snd.fst).devices := by
  have hrun : s.get_devices net now dbg =
      (Except.ok (), { s with devices := dr.result, time_since_update := now },
        if dbg then temperatureLines dr.result else []) := by
    simp only [AllyApi.get_devices, hnet, hdec]
  rw [hrun]
  exact ⟨rfl, rfl, fun d hd => hd⟩

/-- Witness for C4: a successful fetch replaces the snapshot [devOld] by
[devW], and the stale devOld is gone. -/
theorem get_devices_success_replaces_snapshot_witness :
    (apiOld.get_devices netW 9 false).fst = Except.ok () ∧
    ((apiOld.get_devices netW 9 false).snd.fst).devices = drW.result ∧
    devOld ∉ ((apiOld.get_devices netW 9 false).snd.fst).devices := by
  have h := get_devices_success_replaces_snapshot apiOld netW 9 false 200 bodyW drW rfl (by rfl)
  refine ⟨h.1, h.2.1, h.2.2 devOld ?_⟩
  intro hm
  have heq : devOld = devW := List.mem_singleton.mp hm
  have hname := congrArg Device.name heq
  exact absurd hname (by decide)

/-- Membership in the emitted temperature lines: exactly the lines produced,
in the debug format, by a status whose code is va_temperature or
temp_current on some device of the list. -/
theorem mem_temperatureLines (devs : List Device) (line : String) :
    line ∈ temperatureLines devs ↔
      ∃ d, d ∈ devs ∧ ∃ st2, st2 ∈ d.status ∧
        (st2.code = "va_temperature" ∨ st2.code = "temp_current") ∧
        line = d.name ++ ": " ++ renderValue st2.value := by
  simp only [temperatureLines, List.mem_flatMap, List.mem_filterMap]
  constructor
  · rintro ⟨d, hd, st2, hst, heq⟩
    by_cases hc : st2.code = "va_temperature" ∨ st2.code = "temp_current"
    · rw [if_pos hc] at heq
      injection heq with heq2
      exact ⟨d, hd, st2, hst, hc, heq2.symm⟩
    · rw [if_neg hc] at heq
      exact absurd heq (by simp)
  · rintro ⟨d, hd, st2, hst, hc, rfl⟩
    exact ⟨d, hd, st2, hst, by rw [if_pos hc]⟩

/-- C7: after a successful fetch with debug logging enabled, the emitted
diagnostic lines are exactly one line of the form name, colon, space, value
for each status of a snapshot device whose code is a current-temperature code
(va_temperature or temp_current); a status with any other code contributes no
line. -/
theorem temperature_lines_characterization (s : AllyApi)
    (net : HttpRequest → NetOutcome) (now : Instant)
    (s2 : AllyApi) (lines : List String)
    (hrun : s.get_devices net now true = (Except.ok (), s2, lines))
    (line : String) :
    line ∈ lines ↔
      ∃ d, d ∈ s2.devices ∧ ∃ st2, st2 ∈ d.status ∧
        (st2.code = "va_temperature" ∨ st2.code = "temp_current") ∧
        line = d.name ++ ": " ++ renderValue st2.value := by
  rcases get_devices_cases s net now true with ⟨e, he⟩ | ⟨dr, ho⟩
  · rw [he] at hrun
    injection hrun with h1 h2
    exact absurd h1 (by simp)
  · rw [ho] at hrun
    injection hrun with h1 h2
    injection h2 with h3 h4
    subst h3
    subst h4
    exact mem_temperatureLines dr.result line

/-- Witness for C7: the concrete run over devW emits the Living room line
with the value 21.5 (and mentions it as a member of the emitted lines). -/
theorem temperature_lines_characterization_witness :
    "Living room: 21.5" ∈ linesW := by
  have h1 : deserializeDevicesResponse bodyW = some drW := by rfl
  have hrun : apiEx.get_devices netW 5 true = (Except.ok (), sW2, linesW) := by
    simp only [AllyApi.get_devices, netW, h1]
    simp [temperatureLines, drW, devW, stTemp, stLock, renderValue, sW2, linesW, apiEx]
  exact (temperature_lines_characterization apiEx netW 5 sW2 linesW hrun
      "Living room: 21.5").mpr
    ⟨devW, List.Mem.head _, stTemp, List.Mem.head _, Or.inr rfl,
     by simp [devW, stTemp, renderValue]⟩

/-- Counterexample to C1 as stated: the code never inspects the HTTP status,
so a 401 response whose body parses as a Token makes get_token return Ok, and
a 500 response whose body parses as a DevicesResponse makes get_devices
return Ok, instead of the claimed Err. -/
theorem status_ignored_counterexample :
    net401 (tokenRequest apiEx.api_key apiEx.api_secret) =
      NetOutcome.succeed 401 tokenBody401 ∧
    (apiEx.get_token net401).fst = Except.ok () ∧
    net500 (devicesRequest apiEx.token.access_token) =
      NetOutcome.succeed 500 bodyW ∧
    (apiEx.get_devices net500 9 false).fst = Except.ok () :=
  ⟨rfl, by rfl, rfl, by rfl⟩

/-- C1 amended: get_token and get_devices return a distinguishable Err for
every transport failure and for every delivered response whose body does not
deserialize as the expected type (the typical shape of a non-2xx error
response); the status code itself is never inspected. -/
theorem api_errors_transport_or_undecodable (s : AllyApi)
    (net : HttpRequest → NetOutcome) (now : Instant) (dbg : Bool) :
    (net (tokenRequest s.api_key s.api_secret) = NetOutcome.fail →
      (s.get_token net).fst = Except.error ApiError.transport) ∧
    (∀ st body,
      net (tokenRequest s.api_key s.api_secret) = NetOutcome.succeed st body →
      deserializeToken body = none →
      (s.get_token net).fst = Except.error ApiError.deserialize) ∧
    (net (devicesRequest s.token.access_token) = NetOutcome.fail →
      (s.get_devices net now dbg).fst = Except.error ApiError.transport) ∧
    (∀ st body,
      net (devicesRequest s.token.access_token) = NetOutcome.succeed st body →
      deserializeDevicesResponse body = none →
      (s.get_devices net now dbg).fst = Except.error ApiError.deserialize) := by
  refine ⟨?_, ?_, ?_, ?_⟩
  · intro h
    simp only [AllyApi.get_token, h]
  · intro st body h hd
    simp only [AllyApi.get_token, h, hd]
  · intro h
    simp only [AllyApi.get_devices, h]
  · intro st body h hd
    simp only [AllyApi.get_devices, h, hd]

/-- Witness for the amended C1: a transport failure yields the transport
error and an undecodable 500 body yields the deserialization error. -/
theorem api_errors_transport_or_undecodable_witness :
    (apiEx.get_token netFail).fst = Except.error ApiError.transport ∧
    (apiEx.get_devices netBad 9 false).fst = Except.error ApiError.deserialize :=
  ⟨(api_errors_transport_or_undecodable apiEx netFail 9 false).1 rfl,
   (api_errors_transport_or_undecodable apiEx netBad 9 false).2.2.2 500
     Body.malformed rfl rfl⟩
